import Mathlib

/-!
Verification of the email-resource-checker pipeline (src/script.js).

The script runs in a browser and talks to the network through `fetch` and to
the platform through the WHATWG `URL` constructor and `DOMParser`.  The
embedding makes those external effects explicit parameters:

* `FetchEnv` records, per target URL, the outcome of each kind of network
  request the script can make (the forwarding-relay GET, the direct
  cross-origin GET, the opaque no-cors HEAD probe, and the relay
  HEAD-equivalent status call followed by `.json()`).  `none`/`false` model a
  thrown exception.
* `URLModel` records the behaviour of `new URL(u)` and `new URL(ref, base)`:
  `none` models the constructor throwing, `some s` models success with
  serialized href `s`.
* `String → Doc` models `DOMParser.parseFromString(html, 'text/html')`
  followed by the two `querySelectorAll` calls: the anchors' `href`
  attributes and the images' `src` attributes in document order
  (`none` = attribute absent).  `DOMParser` never throws on malformed
  markup, so the model is a total function.

Every function of the script touched by the claims is translated below under
its source name; network-call counting is added so that "no network I/O"
claims are statements about the code, not about the model.
-/

namespace ResourceChecker

/-- Outcome of a body-returning `fetch` that did not throw:
`ok` is `response.ok`, `body` is `await response.text()`. -/
structure PageResp where
  ok : Bool
  body : String
  deriving DecidableEq

/-- Outcome of the relay HEAD-equivalent call (`fetch` + `.json()`) when
neither step threw: `ok` is `proxyResponse.ok`, `status` is
`proxyData.status` (`some c` when the status object is present with
`http_code = c`, `none` when the field is absent/falsy). -/
structure ProxyData where
  ok : Bool
  status : Option Nat
  deriving DecidableEq

/-- The network, as seen by the script, keyed by target URL.
`none` (or `false` for the probe) models the `fetch` call throwing. -/
structure FetchEnv where
  relay : String → Option PageResp
  direct : String → Option PageResp
  noCors : String → Bool
  headProxy : String → Option ProxyData

/-- Behaviour of the WHATWG `URL` constructor.  `parse1 u` is
`new URL(u).href` (`none` = throws); `resolve2 ref base` is
`new URL(ref, base).href` (`none` = throws). -/
structure URLModel where
  parse1 : String → Option String
  resolve2 : String → String → Option String

/-- A parsed HTML document, as the script observes it:
`querySelectorAll('a')` hrefs and `querySelectorAll('img')` srcs in document
order; `none` = attribute absent. -/
structure Doc where
  anchors : List (Option String)
  imgs : List (Option String)
  deriving DecidableEq

/-- A resource descriptor as built by `extractResources`:
`{ url, type }`, plus the `corsRestricted` flag carried only by the
restricted-access marker. -/
structure Resource where
  url : String
  type : String
  corsRestricted : Bool
  deriving DecidableEq

/-- One entry of `validationResults`. -/
structure ValidationResult where
  sourceUrl : String
  url : String
  type : String
  status : String
  reason : String
  deriving DecidableEq

/-- Accumulated observable output of a (partial) run: the records pushed to
`validationResults`, the messages passed to `showError` in order, and the
number of `fetch` invocations made. -/
structure StepOut where
  results : List ValidationResult
  errors : List String
  netCalls : Nat
  deriving DecidableEq

/-- The in-band placeholder `fetchHTMLContent` returns for a reachable but
CORS-restricted page (script.js:144). -/
def restrictedSentinel : String := "<!-- CORS_RESTRICTED -->"

/-- `isValidURL` (script.js:289-296): `new URL(url)` succeeds. -/
def isValidURL (um : URLModel) (url : String) : Bool :=
  (um.parse1 url).isSome

/-- `fetchHTMLContent` (script.js:92-150).  Returns the page content (or
`none` for the JS `null`) together with the number of `fetch` calls made.
The relay GET is tried first; a non-`ok` relay response falls back to the
direct cross-origin GET; a thrown relay call falls back to the no-cors HEAD
probe, whose success yields the restricted sentinel. -/
def fetchHTMLContent (env : FetchEnv) (url : String) : Option String × Nat :=
  match env.relay url with
  | some response =>
      if response.ok then
        (some response.body, 1)
      else
        match env.direct url with
        | some directResponse =>
            if directResponse.ok then (some directResponse.body, 2) else (none, 2)
        | none => (none, 2)
  | none =>
      if env.noCors url then (some restrictedSentinel, 2) else (none, 2)

/-- The `.map(a => ({url: a.getAttribute(...), type: ...})).filter(r => r.url)`
step of `extractResources`: an absent (`null`) or empty attribute value is
falsy in JS, so the resource is dropped. -/
def keepResource : Option String × String → Option Resource
  | (none, _) => none
  | (some u, t) => if u = "" then none else some ⟨u, t, false⟩

/-- `extractResources` (script.js:158-182): the sentinel becomes the single
restricted marker; otherwise anchors become `link` resources and images
`image` resources, links before images, empty references dropped. -/
def extractResources (parse : String → Doc) (html : String) : List Resource :=
  if html = restrictedSentinel then
    [⟨"CORS_RESTRICTED", "error", true⟩]
  else
    let doc := parse html
    let links := doc.anchors.map (fun a => (a, "link"))
    let images := doc.imgs.map (fun i => (i, "image"))
    (links ++ images).filterMap keepResource

/-- The guard `resources.length === 1 && resources[0].corsRestricted`
(script.js:187). -/
def isRestrictedMarker : List Resource → Bool
  | [r] => r.corsRestricted
  | _ => false

/-- The body of the per-resource loop of `validateResources`
(script.js:210-285) for one resource: the produced record together with the
number of `fetch` calls made for it.  A throwing `new URL` is caught by the
per-resource `catch` (script.js:271-281). -/
def processResource (env : FetchEnv) (um : URLModel) (sourceUrl : String)
    (resource : Resource) : ValidationResult × Nat :=
  match um.resolve2 resource.url sourceUrl with
  | none =>
      (⟨sourceUrl, resource.url, resource.type, "Broken", "Error processing resource"⟩, 0)
  | some absoluteUrl =>
      if ! isValidURL um absoluteUrl then
        (⟨sourceUrl, resource.url, resource.type, "Broken", "Invalid URL format"⟩, 0)
      else
        match env.headProxy absoluteUrl with
        | some proxyData =>
            let inRange := match proxyData.status with
              | some c => decide (200 ≤ c ∧ c < 400)
              | none => false
            if proxyData.ok && inRange then
              (⟨sourceUrl, absoluteUrl, resource.type, "Valid", ""⟩, 1)
            else
              (⟨sourceUrl, absoluteUrl, resource.type, "Broken",
                "Resource unavailable (HTTP " ++
                  (match proxyData.status with
                   | some c => toString c
                   | none => "unknown") ++ ")"⟩, 1)
        | none =>
            if env.noCors absoluteUrl then
              (⟨sourceUrl, absoluteUrl, resource.type, "Likely Valid",
                "CORS restrictions prevent full validation"⟩, 2)
            else
              (⟨sourceUrl, absoluteUrl, resource.type, "Broken",
                "Network error or resource unavailable"⟩, 2)

/-- `validateResources` (script.js:185-286): records pushed for one source
page, with the total number of `fetch` calls.  The restricted marker and the
empty list short-circuit; otherwise every resource yields exactly one record
via `processResource`. -/
def validateResources (env : FetchEnv) (um : URLModel) (sourceUrl : String)
    (resources : List Resource) : List ValidationResult × Nat :=
  if isRestrictedMarker resources then
    ([⟨sourceUrl, sourceUrl, "URL", "Unknown", "CORS restricted - cannot access content"⟩], 0)
  else if resources.isEmpty then
    ([⟨sourceUrl, sourceUrl, "URL", "Empty", "No links or images found"⟩], 0)
  else
    let outs := resources.map (processResource env um sourceUrl)
    (outs.map Prod.fst, (outs.map Prod.snd).sum)

/-- One iteration of the per-source loop of `validateURLs`
(script.js:56-74): fetch the page, then extract and validate.  The guard at
script.js:61 is `if (html)` — JS truthiness — so both a `null` fetch result
and a fetched empty-string body take the failure branch: `showError` is
called and no record is appended. -/
def processSource (env : FetchEnv) (um : URLModel) (parse : String → Doc)
    (sourceUrl : String) : StepOut :=
  let fetched := fetchHTMLContent env sourceUrl
  match fetched.1 with
  | some html =>
      if html = "" then
        ⟨[], ["Failed to fetch content from: " ++ sourceUrl], fetched.2⟩
      else
        let resources := extractResources parse html
        let vr := validateResources env um sourceUrl resources
        ⟨vr.1, [], fetched.2 + vr.2⟩
  | none =>
      ⟨[], ["Failed to fetch content from: " ++ sourceUrl], fetched.2⟩

/-- The `for (const sourceUrl of urls)` loop of `validateURLs`, accumulating
records, error messages and network calls in input order. -/
def runSources (env : FetchEnv) (um : URLModel) (parse : String → Doc) :
    List String → StepOut
  | [] => ⟨[], [], 0⟩
  | u :: rest =>
      let p := processSource env um parse u
      let q := runSources env um parse rest
      ⟨p.results ++ q.results, p.errors ++ q.errors, p.netCalls + q.netCalls⟩

/-- `validateURLs` (script.js:21-89) from the point where the URL list has
been read (script.js:29): the three precondition checks in source order,
then the per-source loop. -/
def validateURLs (env : FetchEnv) (um : URLModel) (parse : String → Doc)
    (urls : List String) : StepOut :=
  if urls.length = 0 then
    ⟨[], ["Please enter at least one URL."], 0⟩
  else if urls.length > 10 then
    ⟨[], ["Maximum 10 URLs allowed."], 0⟩
  else
    let invalidURLs := urls.filter (fun u => ! isValidURL um u)
    if ! invalidURLs.isEmpty then
      ⟨[], ["Invalid URL format: " ++ String.intercalate ", " invalidURLs], 0⟩
    else
      runSources env um parse urls

/-- The `.replace(/"/g, '""')` escaping of `exportAsCSV` (script.js:399-403),
character by character: every double quote is doubled, everything else kept. -/
def escq : List Char → List Char
  | [] => []
  | c :: rest => if c = '"' then '"' :: '"' :: escq rest else c :: escq rest

/-- One CSV field of `exportAsCSV`: the escaped text wrapped in double
quotes.  (`result.field || ''` is the identity on the string fields of a
`ValidationResult`.) -/
def csvField (s : String) : List Char :=
  '"' :: (escq s.data ++ ['"'])

/-- One CSV data row (script.js:405): the five quoted fields joined by
commas. -/
def csvRow (r : ValidationResult) : List Char :=
  csvField r.sourceUrl ++ ',' ::
    (csvField r.url ++ ',' ::
      (csvField r.type ++ ',' ::
        (csvField r.status ++ ',' :: csvField r.reason)))

/-- `csvHeader` (script.js:396). -/
def csvHeader : String := "Source URL,Resource URL,Type,Status,Reason\n"

/-- `csvContent` (script.js:397-406): the data rows joined by newlines. -/
def csvBody : List ValidationResult → List Char
  | [] => []
  | [r] => csvRow r
  | r :: s :: rest => csvRow r ++ '\n' :: csvBody (s :: rest)

/-- `exportAsCSV` (script.js:390-408) up to the produced CSV text: the
function returns early (no file) when there are no results, otherwise the
header followed by the data rows. -/
def exportAsCSV (results : List ValidationResult) : Option String :=
  if results.isEmpty then none
  else some (csvHeader ++ String.mk (csvBody results))

/-- Modelled from the spec: the spec's round-trip property ("exporting N
results to CSV and parsing them back") needs a CSV reader, which the
repository does not contain.  Parser state for quoted-field CSV: before a
field's opening quote, inside a quoted field, or just after a closing
quote. -/
inductive ScanSt
  | expectQ
  | inQ
  | afterQ
  deriving DecidableEq

/-- Modelled from the spec: standard CSV scanning of quote-enclosed fields.
`f` is the current field, `row` the current row's finished fields, `rows`
the finished rows.  Inside quotes a doubled quote denotes a literal quote;
after a closing quote a comma ends the field and a newline ends the row. -/
def scan : ScanSt → List Char → List String → List (List String) →
    List Char → List (List String)
  | st, f, row, rows, [] =>
      match st with
      | ScanSt.afterQ => rows ++ [row ++ [String.mk f]]
      | _ => rows
  | st, f, row, rows, c :: rest =>
      match st with
      | ScanSt.expectQ =>
          if c = '"' then scan ScanSt.inQ f row rows rest else rows
      | ScanSt.inQ =>
          if c = '"' then scan ScanSt.afterQ f row rows rest
          else scan ScanSt.inQ (f ++ [c]) row rows rest
      | ScanSt.afterQ =>
          if c = '"' then scan ScanSt.inQ (f ++ ['"']) row rows rest
          else if c = ',' then scan ScanSt.expectQ [] (row ++ [String.mk f]) rows rest
          else if c = '\n' then
            scan ScanSt.expectQ [] [] (rows ++ [row ++ [String.mk f]]) rest
          else rows

/-- Modelled from the spec: drop everything up to and including the first
newline (used to skip the header line, which contains no embedded
newline). -/
def dropLine : List Char → List Char
  | [] => []
  | c :: rest => if c = '\n' then rest else dropLine rest

/-- Modelled from the spec: parse an exported CSV text back into its data
rows (the header line is skipped, then the quote-enclosed fields are
scanned). -/
def parseCSV (s : String) : List (List String) :=
  scan ScanSt.expectQ [] [] [] (dropLine s.data)

/-- The five fields of a result record, in CSV column order. -/
def recordFields (r : ValidationResult) : List String :=
  [r.sourceUrl, r.url, r.type, r.status, r.reason]

/-!  Concrete instances used by the closed witness and counterexample
theorems below. -/

/-- Pointwise model of the WHATWG `URL` constructor at the inputs exercised
in this file.  Each equation matches browser behaviour: an absolute
serialized URL parses to itself; `"/b"` against `https://example.com/a`
resolves to `https://example.com/b`; everything else used here (notably
`"http://["`, whose host fails to parse) throws. -/
def um0 : URLModel where
  parse1 u :=
    if u = "https://example.com/a" then some "https://example.com/a"
    else if u = "https://example.com/b" then some "https://example.com/b"
    else if u = "https://example.com/c" then some "https://example.com/c"
    else if u = "https://cdn.example.com/x.png" then some "https://cdn.example.com/x.png"
    else none
  resolve2 ref base :=
    if ref = "/b" && base = "https://example.com/a" then some "https://example.com/b"
    else if ref = "https://cdn.example.com/x.png" then some "https://cdn.example.com/x.png"
    else none

/-- A parse model for pages whose content is irrelevant: no anchors, no
images. -/
def parse0 : String → Doc := fun _ => ⟨[], []⟩

/-- A parse model with one anchor (`href="/b"`), one anchor with no `href`,
one anchor with an empty `href`, and one image (`src` pointing at the CDN). -/
def parseW : String → Doc := fun _ =>
  ⟨[some "/b", none, some ""], [some "https://cdn.example.com/x.png"]⟩

/-- Network where the relay GET succeeds with a small page body. -/
def envA : FetchEnv where
  relay _ := some ⟨true, "<p>hi</p>"⟩
  direct _ := none
  noCors _ := false
  headProxy _ := none

/-- Network where the relay GET responds non-`ok`, the direct GET throws,
and the no-cors probe would succeed. -/
def env1 : FetchEnv where
  relay _ := some ⟨false, ""⟩
  direct _ := none
  noCors _ := true
  headProxy _ := none

/-- Network where the relay page GET succeeds and the relay HEAD-equivalent
call returns an `ok` response with `http_code = 200`. -/
def env2 : FetchEnv where
  relay _ := some ⟨true, "<p>hi</p>"⟩
  direct _ := none
  noCors _ := false
  headProxy _ := some ⟨true, some 200⟩

/-- Network where every request throws and the probe fails: all three fetch
tiers fail. -/
def env3 : FetchEnv where
  relay _ := none
  direct _ := none
  noCors _ := false
  headProxy _ := none

/-- Network where fetching `https://example.com/c` fails through all tiers
while every other page is served by the relay. -/
def env7 : FetchEnv where
  relay u := if u = "https://example.com/c" then none else some ⟨true, "<p>hi</p>"⟩
  direct _ := none
  noCors _ := false
  headProxy _ := none

/-- Network where the relay GET succeeds with a body that is exactly the
restricted sentinel text. -/
def env10 : FetchEnv where
  relay _ := some ⟨true, "<!-- CORS_RESTRICTED -->"⟩
  direct _ := none
  noCors _ := false
  headProxy _ := none

theorem mk_data (s : String) : String.mk s.data = s := rfl

theorem data_append (a b : String) : (a ++ b).data = a.data ++ b.data := rfl

/-- C1: the page fetcher's actual tier structure and result mapping: relay
success yields the body; a relay response with a non-success status falls
back to the direct request (whose non-success or thrown failure yields
`null` with no existence probe); a thrown relay call falls back to the
existence probe directly (skipping the direct request), whose success yields
the restricted sentinel and whose failure yields `null`. -/
theorem fetch_tier_behavior (env : FetchEnv) (url : String) :
    (∀ r, env.relay url = some r → r.ok = true →
        fetchHTMLContent env url = (some r.body, 1)) ∧
    (∀ r d, env.relay url = some r → r.ok = false → env.direct url = some d →
        fetchHTMLContent env url = (if d.ok then some d.body else none, 2)) ∧
    (∀ r, env.relay url = some r → r.ok = false → env.direct url = none →
        fetchHTMLContent env url = (none, 2)) ∧
    (env.relay url = none →
        fetchHTMLContent env url =
          (if env.noCors url then some restrictedSentinel else none, 2)) := by
  refine ⟨?_, ?_, ?_, ?_⟩
  · intro r h1 h2
    simp [fetchHTMLContent, h1, h2]
  · intro r d h1 h2 h3
    cases hd : d.ok <;> simp [fetchHTMLContent, h1, h2, h3, hd]
  · intro r h1 h2 h3
    simp [fetchHTMLContent, h1, h2, h3]
  · intro h1
    cases hn : env.noCors url <;> simp [fetchHTMLContent, h1, hn]

/-- C1 witness: a relay success returns the raw body after one network
call. -/
theorem fetch_tier_behavior_witness :
    fetchHTMLContent envA "https://example.com/a" = (some "<p>hi</p>", 1) :=
  (fetch_tier_behavior envA "https://example.com/a").1 ⟨true, "<p>hi</p>"⟩ rfl rfl

/-- C1 counterexample: the relay responds with a non-success status, the
direct request throws, and the no-cors probe would succeed — the claim says
the probe is attempted and its success yields the RestrictedAccess sentinel,
but the fetcher returns `null` after only two calls: the probe runs only
when the relay call itself throws. -/
theorem fetch_probe_after_direct_cex :
    env1.noCors "https://example.com/a" = true ∧
    (∃ r, env1.relay "https://example.com/a" = some r ∧ r.ok = false) ∧
    env1.direct "https://example.com/a" = none ∧
    fetchHTMLContent env1 "https://example.com/a" = (none, 2) :=
  ⟨rfl, ⟨⟨false, ""⟩, rfl, rfl⟩, rfl, rfl⟩

/-- C2: the claim says an unresolvable reference is recorded as `Broken`
with reason "Invalid URL format"; in the code the throwing `new URL` at
script.js:213 is caught by the generic per-resource `catch`
(script.js:271-281), which records reason "Error processing resource"
instead — the dedicated branch at script.js:216-225 carrying the claimed
reason is unreachable, because a URL serialized by a successful `new URL`
always re-parses.  At the failing input `"http://["` (against source page
`https://example.com/a`, where the browser URL constructor throws) the code
records one `Broken` record with reason "Error processing resource", makes
no network call for that resource, and continues with the next resource. -/
theorem invalid_reference_reason_bug :
    um0.resolve2 "http://[" "https://example.com/a" = none ∧
    processResource env2 um0 "https://example.com/a" ⟨"http://[", "link", false⟩ =
      (⟨"https://example.com/a", "http://[", "link", "Broken",
        "Error processing resource"⟩, 0) ∧
    (validateResources env2 um0 "https://example.com/a"
        [⟨"http://[", "link", false⟩,
         ⟨"https://cdn.example.com/x.png", "image", false⟩]).1 =
      [⟨"https://example.com/a", "http://[", "link", "Broken",
        "Error processing resource"⟩,
       ⟨"https://example.com/a", "https://cdn.example.com/x.png", "image",
        "Valid", ""⟩] :=
  ⟨rfl, rfl, rfl⟩

/-- C4: an empty list, a list of more than ten URLs, or a list with a
syntactically invalid entry is rejected with the corresponding precondition
message, with no result records and zero network calls; the invalid-entry
message lists every offending entry. -/
theorem precondition_rejection (env : FetchEnv) (um : URLModel)
    (parse : String → Doc) (urls : List String) :
    (urls = [] →
        validateURLs env um parse urls =
          ⟨[], ["Please enter at least one URL."], 0⟩) ∧
    (urls.length > 10 →
        validateURLs env um parse urls = ⟨[], ["Maximum 10 URLs allowed."], 0⟩) ∧
    (urls ≠ [] → urls.length ≤ 10 →
        urls.filter (fun u => ! isValidURL um u) ≠ [] →
        validateURLs env um parse urls =
          ⟨[], ["Invalid URL format: " ++
            String.intercalate ", " (urls.filter (fun u => ! isValidURL um u))], 0⟩) ∧
    (∀ u ∈ urls, isValidURL um u = false →
        u ∈ urls.filter (fun x => ! isValidURL um x)) := by
  refine ⟨?_, ?_, ?_, ?_⟩
  · intro h
    subst h
    simp [validateURLs]
  · intro h
    have h0 : ¬ urls.length = 0 := by omega
    simp [validateURLs, h0, h]
  · intro h1 h2 h3
    have h0 : ¬ urls.length = 0 := by
      simpa [List.length_eq_zero] using h1
    have h10 : ¬ urls.length > 10 := by omega
    simp [validateURLs, h0, h10, h3]
  · intro u hu hinv
    simp [List.mem_filter, hu, hinv]

/-- C4 witness: a list containing one well-formed and one malformed URL is
rejected with a message naming the malformed entry, no records and no
network calls. -/
theorem precondition_rejection_witness :
    validateURLs envA um0 parse0 ["https://example.com/a", "not a url"] =
      ⟨[], ["Invalid URL format: " ++ String.intercalate ", "
        ((["https://example.com/a", "not a url"]).filter
          (fun u => ! isValidURL um0 u))], 0⟩ :=
  (precondition_rejection envA um0 parse0 _).2.2.1 (by decide) (by decide) (by decide)

/-- C6: the validator short-circuits on its two special inputs — the single
restricted marker yields one `Unknown` record for the source URL, the empty
list yields one `Empty` record, and neither makes any network call. -/
theorem validator_short_circuits (env : FetchEnv) (um : URLModel)
    (sourceUrl : String) :
    validateResources env um sourceUrl [⟨"CORS_RESTRICTED", "error", true⟩] =
      ([⟨sourceUrl, sourceUrl, "URL", "Unknown",
        "CORS restricted - cannot access content"⟩], 0) ∧
    validateResources env um sourceUrl [] =
      ([⟨sourceUrl, sourceUrl, "URL", "Empty", "No links or images found"⟩], 0) :=
  ⟨rfl, rfl⟩

/-- C10: the restricted-access sentinel is an in-band string: whenever the
relay (or the direct fallback) succeeds with a body exactly equal to
`<!-- CORS_RESTRICTED -->`, the pipeline emits the single `Unknown`
CORS-restricted record for that page, even though the body was readable. -/
theorem sentinel_in_band (env : FetchEnv) (um : URLModel)
    (parse : String → Doc) (url : String) :
    (∀ r, env.relay url = some r → r.ok = true → r.body = restrictedSentinel →
        (processSource env um parse url).results =
          [⟨url, url, "URL", "Unknown", "CORS restricted - cannot access content"⟩]) ∧
    (∀ r d, env.relay url = some r → r.ok = false → env.direct url = some d →
        d.ok = true → d.body = restrictedSentinel →
        (processSource env um parse url).results =
          [⟨url, url, "URL", "Unknown", "CORS restricted - cannot access content"⟩]) := by
  have hs : ¬ (restrictedSentinel = "") := by decide
  constructor
  · intro r h1 h2 h3
    simp [processSource, fetchHTMLContent, extractResources, validateResources,
      isRestrictedMarker, h1, h2, h3, hs]
  · intro r d h1 h2 h3 h4 h5
    simp [processSource, fetchHTMLContent, extractResources, validateResources,
      isRestrictedMarker, h1, h2, h3, h4, h5, hs]

/-- C10 witness: a relay success whose body is the sentinel text yields the
single CORS-restricted `Unknown` record. -/
theorem sentinel_in_band_witness :
    (processSource env10 um0 parse0 "https://example.com/a").results =
      [⟨"https://example.com/a", "https://example.com/a", "URL", "Unknown",
        "CORS restricted - cannot access content"⟩] :=
  (sentinel_in_band env10 um0 parse0 "https://example.com/a").1
    ⟨true, "<!-- CORS_RESTRICTED -->"⟩ rfl rfl rfl

/-- C5: per-resource probing through the relay HEAD-equivalent call: an
`ok` relay response whose status object carries an `http_code` in
`[200,400)` yields `Valid`; any response whose status is present but not
(successful and in range) yields `Broken` embedding the numeric code; a
response without a status field yields `Broken` embedding "unknown"; a
thrown relay call falls back to the no-cors probe on the absolute URL, whose
success yields `Likely Valid` with the CORS reason and whose failure yields
`Broken` with the network-error reason. -/
theorem resource_probe_classification (env : FetchEnv) (um : URLModel)
    (sourceUrl : String) (resource : Resource) (absU : String)
    (hres : um.resolve2 resource.url sourceUrl = some absU)
    (hval : isValidURL um absU = true) :
    (∀ pd c, env.headProxy absU = some pd → pd.ok = true → pd.status = some c →
        200 ≤ c → c < 400 →
        processResource env um sourceUrl resource =
          (⟨sourceUrl, absU, resource.type, "Valid", ""⟩, 1)) ∧
    (∀ pd c, env.headProxy absU = some pd → pd.status = some c →
        ¬ (pd.ok = true ∧ 200 ≤ c ∧ c < 400) →
        processResource env um sourceUrl resource =
          (⟨sourceUrl, absU, resource.type, "Broken",
            "Resource unavailable (HTTP " ++ toString c ++ ")"⟩, 1)) ∧
    (∀ pd, env.headProxy absU = some pd → pd.status = none →
        processResource env um sourceUrl resource =
          (⟨sourceUrl, absU, resource.type, "Broken",
            "Resource unavailable (HTTP unknown)"⟩, 1)) ∧
    (env.headProxy absU = none → env.noCors absU = true →
        processResource env um sourceUrl resource =
          (⟨sourceUrl, absU, resource.type, "Likely Valid",
            "CORS restrictions prevent full validation"⟩, 2)) ∧
    (env.headProxy absU = none → env.noCors absU = false →
        processResource env um sourceUrl resource =
          (⟨sourceUrl, absU, resource.type, "Broken",
            "Network error or resource unavailable"⟩, 2)) := by
  refine ⟨?_, ?_, ?_, ?_, ?_⟩
  · intro pd c h1 h2 h3 h4 h5
    simp [processResource, hres, hval, h1, h2, h3, h4, h5]
  · intro pd c h1 h2 h3
    simp [processResource, hres, hval, h1, h2]
    intro hok hle
    rcases Nat.lt_or_ge c 400 with hlt | hge
    · exact absurd ⟨hok, hle, hlt⟩ h3
    · exact hge
  · intro pd h1 h2
    simp [processResource, hres, hval, h1, h2]
  · intro h1 h2
    simp [processResource, hres, hval, h1, h2]
  · intro h1 h2
    simp [processResource, hres, hval, h1, h2]

/-- C5 witness: an authoritative 200 through the relay yields `Valid` after
a single network call. -/
theorem resource_probe_classification_witness :
    processResource env2 um0 "https://example.com/a"
        ⟨"https://cdn.example.com/x.png", "image", false⟩ =
      (⟨"https://example.com/a", "https://cdn.example.com/x.png", "image",
        "Valid", ""⟩, 1) :=
  (resource_probe_classification env2 um0 "https://example.com/a"
      ⟨"https://cdn.example.com/x.png", "image", false⟩
      "https://cdn.example.com/x.png" rfl rfl).1
    ⟨true, some 200⟩ 200 rfl rfl rfl (by decide) (by decide)

/-- Every record pushed by the per-resource loop carries one of the three
loop statuses. -/
theorem processResource_status (env : FetchEnv) (um : URLModel)
    (sourceUrl : String) (r : Resource) :
    (processResource env um sourceUrl r).1.status = "Valid" ∨
    (processResource env um sourceUrl r).1.status = "Broken" ∨
    (processResource env um sourceUrl r).1.status = "Likely Valid" := by
  unfold processResource
  cases h1 : um.resolve2 r.url sourceUrl with
  | none => simp
  | some absoluteUrl =>
      cases hv : isValidURL um absoluteUrl <;> simp [hv]
      cases h2 : env.headProxy absoluteUrl with
      | none => cases hn : env.noCors absoluteUrl <;> simp [hn]
      | some pd => split <;> split <;> simp

/-- The number of records `validateResources` pushes: one for the restricted
marker or the empty list, otherwise one per resource. -/
theorem validateResources_length (env : FetchEnv) (um : URLModel)
    (sourceUrl : String) (rs : List Resource) :
    (validateResources env um sourceUrl rs).1.length =
      if isRestrictedMarker rs || rs.isEmpty then 1 else rs.length := by
  unfold validateResources
  cases hm : isRestrictedMarker rs <;> simp [hm]
  cases rs with
  | nil => simp
  | cons a l => simp

/-- C3 (amended): per source page, a fetch that returns `null` or an
empty-string body (both falsy at the `if (html)` guard) appends no records;
a fetched nonempty page appends exactly one record when its resource list is
the restricted marker or empty, and otherwise exactly one record per
extracted resource; when those N≥1 resources are all independently
resolvable, each of the N records has status `Valid`, `Broken` or
`Likely Valid`. -/
theorem perSource_record_count (env : FetchEnv) (um : URLModel)
    (parse : String → Doc) (u : String) :
    ((fetchHTMLContent env u).1 = none →
        (processSource env um parse u).results = []) ∧
    ((fetchHTMLContent env u).1 = some "" →
        (processSource env um parse u).results = []) ∧
    (∀ html, (fetchHTMLContent env u).1 = some html → html ≠ "" →
        (processSource env um parse u).results.length =
          (if isRestrictedMarker (extractResources parse html) ||
              (extractResources parse html).isEmpty
           then 1 else (extractResources parse html).length)) ∧
    (∀ html, (fetchHTMLContent env u).1 = some html → html ≠ "" →
        isRestrictedMarker (extractResources parse html) = false →
        extractResources parse html ≠ [] →
        (∀ r ∈ extractResources parse html, (um.resolve2 r.url u).isSome) →
        ∀ v ∈ (processSource env um parse u).results,
          v.status = "Valid" ∨ v.status = "Broken" ∨ v.status = "Likely Valid") := by
  refine ⟨?_, ?_, ?_, ?_⟩
  · intro h
    simp [processSource, h]
  · intro h
    simp [processSource, h]
  · intro html h hne
    simp [processSource, h, hne, validateResources_length]
  · intro html h hnb hm hne _ v hv
    simp only [processSource, h, if_neg hnb] at hv
    simp [validateResources, hm, hne, Function.comp] at hv
    obtain ⟨r, _, hr⟩ := hv
    rw [← hr]
    exact processResource_status env um u r

/-- C3 witness: a fetched nonempty page with no extractable resources
appends exactly one record. -/
theorem perSource_record_count_witness :
    (processSource envA um0 parse0 "https://example.com/a").results.length =
      (if isRestrictedMarker (extractResources parse0 "<p>hi</p>") ||
          (extractResources parse0 "<p>hi</p>").isEmpty
       then 1 else (extractResources parse0 "<p>hi</p>").length) :=
  (perSource_record_count envA um0 parse0 "https://example.com/a").2.2.1
    "<p>hi</p>" rfl (by decide)

/-- C3 counterexample: a source URL whose fetch fails through all three
tiers appends zero records, not the one record the claim assigns to the
unreachable case. -/
theorem perSource_unreachable_cex :
    (fetchHTMLContent env3 "https://example.com/a").1 = none ∧
    (processSource env3 um0 parse0 "https://example.com/a").results.length = 0 ∧
    (processSource env3 um0 parse0 "https://example.com/a").results.length ≠ 1 :=
  ⟨rfl, rfl, by decide⟩

/-- The per-source loop accumulates records, error messages and network
calls by concatenation over the input list. -/
theorem runSources_append (env : FetchEnv) (um : URLModel)
    (parse : String → Doc) (l1 l2 : List String) :
    runSources env um parse (l1 ++ l2) =
      ⟨(runSources env um parse l1).results ++ (runSources env um parse l2).results,
       (runSources env um parse l1).errors ++ (runSources env um parse l2).errors,
       (runSources env um parse l1).netCalls + (runSources env um parse l2).netCalls⟩ := by
  induction l1 with
  | nil => simp [runSources]
  | cons u rest ih => simp [runSources, ih, Nat.add_assoc]

/-- C7: when a source URL's fetch returns `null`, the orchestrator appends
no record for it, surfaces the per-source error message, and the results are
exactly those of the other source URLs; per-source processing is a total
step, so one source's outcome cannot stop the rest. -/
theorem fetch_failure_skips_source (env : FetchEnv) (um : URLModel)
    (parse : String → Doc) (l1 l2 : List String) (u : String)
    (hlen : (l1 ++ u :: l2).length ≤ 10)
    (hvalid : (l1 ++ u :: l2).filter (fun x => ! isValidURL um x) = [])
    (hfail : (fetchHTMLContent env u).1 = none) :
    (validateURLs env um parse (l1 ++ u :: l2)).results =
      (runSources env um parse l1).results ++ (runSources env um parse l2).results ∧
    ("Failed to fetch content from: " ++ u) ∈
      (validateURLs env um parse (l1 ++ u :: l2)).errors := by
  have h0 : ¬ (l1 ++ u :: l2).length = 0 := by simp
  have h10 : ¬ (l1 ++ u :: l2).length > 10 := by omega
  have hrun : validateURLs env um parse (l1 ++ u :: l2) =
      runSources env um parse (l1 ++ u :: l2) := by
    unfold validateURLs
    rw [if_neg h0, if_neg h10]
    simp [hvalid]
  have hu : processSource env um parse u =
      ⟨[], ["Failed to fetch content from: " ++ u], (fetchHTMLContent env u).2⟩ := by
    simp [processSource, hfail]
  have hsplit : l1 ++ u :: l2 = l1 ++ [u] ++ l2 := by simp
  rw [hrun, hsplit, runSources_append, runSources_append]
  constructor
  · simp [runSources, hu]
  · simp [runSources, hu]

/-- C7 witness: the first source fails through all tiers, contributes no
records and one error message, and the second source is still processed. -/
theorem fetch_failure_skips_source_witness :
    (validateURLs env7 um0 parse0
        ([] ++ "https://example.com/c" :: ["https://example.com/a"])).results =
      (runSources env7 um0 parse0 []).results ++
        (runSources env7 um0 parse0 ["https://example.com/a"]).results ∧
    ("Failed to fetch content from: " ++ "https://example.com/c") ∈
      (validateURLs env7 um0 parse0
        ([] ++ "https://example.com/c" :: ["https://example.com/a"])).errors :=
  fetch_failure_skips_source env7 um0 parse0 [] ["https://example.com/a"]
    "https://example.com/c" (by decide) (by decide) rfl

/-- C8: for non-restricted content, extraction is total over the parsed
document (`DOMParser` recovers from malformed markup, so the parse model is
a total function and extraction never raises), collects each anchor href as
a `link` resource and each image src as an `image` resource with all links
before all images in document order, and drops exactly the absent or empty
references, so no empty-reference resource reaches the output. -/
theorem extraction_structure (parse : String → Doc) (html : String)
    (hns : html ≠ restrictedSentinel) :
    extractResources parse html =
      (parse html).anchors.filterMap (fun a => keepResource (a, "link")) ++
        (parse html).imgs.filterMap (fun i => keepResource (i, "image")) ∧
    (∀ r ∈ extractResources parse html,
        r.url ≠ "" ∧ r.corsRestricted = false ∧
          (r.type = "link" ∨ r.type = "image")) := by
  have h1 : extractResources parse html =
      (parse html).anchors.filterMap (fun a => keepResource (a, "link")) ++
        (parse html).imgs.filterMap (fun i => keepResource (i, "image")) := by
    unfold extractResources
    rw [if_neg hns]
    simp only [List.filterMap_append, List.filterMap_map]
    rfl
  refine ⟨h1, ?_⟩
  intro r hr
  rw [h1] at hr
  have key : ∀ (x : Option String) (t : String), keepResource (x, t) = some r →
      r.url ≠ "" ∧ r.corsRestricted = false ∧ r.type = t := by
    intro x t hk
    cases x with
    | none => simp [keepResource] at hk
    | some s =>
        by_cases hs : s = ""
        · simp [keepResource, hs] at hk
        · rw [keepResource] at hk
          rw [if_neg hs] at hk
          cases hk
          exact ⟨hs, rfl, rfl⟩
  rcases List.mem_append.mp hr with h | h
  · obtain ⟨x, _, hk⟩ := List.mem_filterMap.mp h
    obtain ⟨hu, hc, ht⟩ := key x "link" hk
    exact ⟨hu, hc, Or.inl ht⟩
  · obtain ⟨x, _, hk⟩ := List.mem_filterMap.mp h
    obtain ⟨hu, hc, ht⟩ := key x "image" hk
    exact ⟨hu, hc, Or.inr ht⟩

/-- C8 witness: a document with one resolvable anchor, one anchor without an
href, one anchor with an empty href and one image yields exactly the link
then the image, with the empty and absent references dropped. -/
theorem extraction_structure_witness :
    extractResources parseW "<p>" =
      (parseW "<p>").anchors.filterMap (fun a => keepResource (a, "link")) ++
        (parseW "<p>").imgs.filterMap (fun i => keepResource (i, "image")) ∧
    (∀ r ∈ extractResources parseW "<p>",
        r.url ≠ "" ∧ r.corsRestricted = false ∧
          (r.type = "link" ∨ r.type = "image")) :=
  extraction_structure parseW "<p>" (by decide)

theorem scan_inQ_esc (s : List Char) : ∀ (f : List Char) (row : List String)
    (rows : List (List String)) (rest : List Char),
    scan ScanSt.inQ f row rows (escq s ++ '"' :: rest) =
      scan ScanSt.afterQ (f ++ s) row rows rest := by
  induction s with
  | nil =>
      intro f row rows rest
      simp [escq, scan]
  | cons c cs ih =>
      intro f row rows rest
      by_cases hc : c = '"'
      · subst hc
        simp [escq, scan, ih, List.append_assoc]
      · simp [escq, scan, hc, ih, List.append_assoc]

theorem scan_csvField (s : String) (row : List String)
    (rows : List (List String)) (rest : List Char) :
    scan ScanSt.expectQ [] row rows (csvField s ++ rest) =
      scan ScanSt.afterQ s.data row rows rest := by
  simp [csvField, scan, List.append_assoc, scan_inQ_esc]

theorem scan_comma (f : List Char) (row : List String)
    (rows : List (List String)) (L : List Char) :
    scan ScanSt.afterQ f row rows (',' :: L) =
      scan ScanSt.expectQ [] (row ++ [String.mk f]) rows L := rfl

theorem scan_newline (f : List Char) (row : List String)
    (rows : List (List String)) (L : List Char) :
    scan ScanSt.afterQ f row rows ('\n' :: L) =
      scan ScanSt.expectQ [] [] (rows ++ [row ++ [String.mk f]]) L := rfl

theorem scan_afterQ_nil (f : List Char) (row : List String)
    (rows : List (List String)) :
    scan ScanSt.afterQ f row rows [] = rows ++ [row ++ [String.mk f]] := rfl

theorem scan_row (r : ValidationResult) (rows : List (List String))
    (rest : List Char) :
    scan ScanSt.expectQ [] [] rows (csvRow r ++ rest) =
      scan ScanSt.afterQ r.reason.data [r.sourceUrl, r.url, r.type, r.status]
        rows rest := by
  simp [csvRow, List.append_assoc, scan_csvField, scan_comma, mk_data]

theorem scan_csvBody (rs : List ValidationResult) : ∀ rows,
    scan ScanSt.expectQ [] [] rows (csvBody rs) = rows ++ rs.map recordFields := by
  induction rs with
  | nil =>
      intro rows
      simp [csvBody, scan]
  | cons r rest ih =>
      intro rows
      cases rest with
      | nil =>
          have h : csvRow r = csvRow r ++ [] := by simp
          rw [csvBody, h, scan_row, scan_afterQ_nil, mk_data]
          simp [recordFields]
      | cons s t =>
          rw [csvBody, scan_row, scan_newline, mk_data, ih]
          simp [recordFields]

theorem dropLine_append_of_not_mem (l : List Char) (h : '\n' ∉ l)
    (L : List Char) : dropLine (l ++ '\n' :: L) = L := by
  induction l with
  | nil => simp [dropLine]
  | cons c cs ih =>
      have hc : ¬ c = '\n' := by
        intro hh
        exact h (by simp [hh])
      have hcs : '\n' ∉ cs := fun hm => h (List.mem_cons_of_mem _ hm)
      simp [dropLine, hc, ih hcs]

theorem dropLine_header (L : List Char) : dropLine (csvHeader.data ++ L) = L := by
  have h1 : csvHeader.data =
      "Source URL,Resource URL,Type,Status,Reason".data ++ '\n' :: [] := by decide
  rw [h1, List.append_assoc]
  exact dropLine_append_of_not_mem _ (by decide) L

/-- C9: exporting a nonempty result list yields the header followed by one
data row per record, each field double-quote-enclosed with internal quotes
doubled, and parsing the CSV back yields exactly one row per record whose
five fields match the record's `sourceUrl`, `url`, `type`, `status` and
`reason`. -/
theorem exportAsCSV_roundTrip (rs : List ValidationResult) (hne : rs ≠ []) :
    ∃ csv, exportAsCSV rs = some csv ∧
      (∃ body, csv = csvHeader ++ body) ∧
      parseCSV csv = rs.map recordFields := by
  refine ⟨csvHeader ++ String.mk (csvBody rs), ?_,
    ⟨String.mk (csvBody rs), rfl⟩, ?_⟩
  · unfold exportAsCSV
    rw [if_neg ?_]
    simpa using hne
  · unfold parseCSV
    rw [data_append]
    rw [show (String.mk (csvBody rs)).data = csvBody rs from rfl]
    rw [dropLine_header]
    simpa using scan_csvBody rs []

/-- A concrete result list exercising embedded quotes, commas and a newline
inside fields. -/
def rsW : List ValidationResult :=
  [⟨"https://example.com/a", "https://example.com/b", "link", "Broken",
    "He said \"hi\", twice\nor more"⟩,
   ⟨"https://example.com/a", "https://cdn.example.com/x.png", "image",
    "Valid", ""⟩]

/-- C9 witness: the round trip holds at a concrete list whose fields contain
quotes, commas and a newline. -/
theorem exportAsCSV_roundTrip_witness :
    rsW ≠ [] ∧
    ∃ csv, exportAsCSV rsW = some csv ∧
      (∃ body, csv = csvHeader ++ body) ∧
      parseCSV csv = rsW.map recordFields :=
  ⟨by decide, exportAsCSV_roundTrip rsW (by decide)⟩

end ResourceChecker
